
import Mathlib

/-!
Verification of the `gitlab-tools` bulk merge-request reconciliation engine.

Shallow embedding of the Go sources of `sajjad-fatehi/gitlab-tools`:

* `internal/gitlab` types (`Project`, `MergeRequest`, `Commit`, `Compare`,
  `Diff`) together with the pure predicates `MergeRequest.IsDraft` and
  `Compare.HasChanges`;
* the `internal/bulkmr` service (`Config`, `ResultStatus`, `ProjectResult`,
  `Summary`, `Service.processProject`, `Service.ProcessProjects`).

The `GitLabClient` interface is embedded as a record of functions; a Go
method returning `(*T, error)` becomes `Except String (Option T)` so that a
`nil` pointer paired with a `nil` error is representable.  Dereferencing such
a `nil` pointer (a Go panic) is modelled by the whole per-project procedure
returning `none`.  Besides the functional result, the embedding also records
the ordered list of Gateway calls issued (`CallEvent`), which is ghost
instrumentation used to state the "no further call occurs" claims.
-/

namespace gitlab

/-- Go struct `Project` of `internal/gitlab`; field defaults are Go zero values. -/

structure Project where
  ID : Int := 0
  Name : String := ""
  PathWithNamespace : String := ""
  WebURL : String := ""
  Description : String := ""
  Topics : List String := []
deriving DecidableEq, Repr

/-- Go struct `MergeRequest` of `internal/gitlab`; field defaults are Go zero values. -/

structure MergeRequest where
  ID : Int := 0
  IID : Int := 0
  Title : String := ""
  WebURL : String := ""
  State : String := ""
  Draft : Bool := false
  SourceBranch : String := ""
  TargetBranch : String := ""
  ProjectID : Int := 0
deriving DecidableEq, Repr

/-- Go struct `Commit` of `internal/gitlab`. -/

structure Commit where
  ID : String := ""
  ShortID : String := ""
  Title : String := ""
deriving DecidableEq, Repr

/-- Go struct `Diff` of `internal/gitlab`. -/

structure Diff where
  OldPath : String := ""
  NewPath : String := ""
  AMode : String := ""
  BMode : String := ""
  NewFile : Bool := false
  RenamedFile : Bool := false
  DeletedFile : Bool := false
deriving DecidableEq, Repr

/-- Go struct `Compare` of `internal/gitlab`. -/

structure Compare where
  Commits : List Commit := []
  Diffs : List Diff := []
  Commit : Commit := {}
deriving DecidableEq, Repr

/-- Embedding of `func (c *Compare) HasChanges() bool`: the commit list is non-empty. -/

def Compare.HasChanges (c : Compare) : Bool :=
  c.Commits.length > 0

/-- Go `strings.TrimSpace`: drop whitespace runes from both ends. -/

def trimGo (s : String) : String :=
  ⟨((s.data.dropWhile Char.isWhitespace).reverse.dropWhile Char.isWhitespace).reverse⟩

/-- Go `strings.ToLower`: lower-case each rune. -/

def toLowerGo (s : String) : String :=
  ⟨s.data.map Char.toLower⟩

/-- Go `strings.HasPrefix`: rune-sequence prefix test. -/

def startsWithGo (s p : String) : Bool :=
  p.data.isPrefixOf s.data

/-- Embedding of `func (mr *MergeRequest) IsDraft() bool`: the boolean flag, or the
trimmed lower-cased title starting with `draft:` or `wip:`. -/

def MergeRequest.IsDraft (mr : MergeRequest) : Bool :=
  if mr.Draft then
    true
  else
    let titleLower := toLowerGo (trimGo mr.Title)
    startsWithGo titleLower "draft:" || startsWithGo titleLower "wip:"

end gitlab

namespace bulkmr
open gitlab

/-- The `GitLabClient` interface of `internal/bulkmr`, embedded as a record
of functions.  Pointer results are `Option`s: `.ok none` is the Go
`(nil, nil)` return. -/

structure GitLabClient where
  GetProject : String → Except String (Option Project)
  BranchExists : Int → String → Except String Bool
  CompareBranches : Int → String → String → Except String (Option Compare)
  FindOpenMergeRequests : Int → String → String → Except String (List MergeRequest)
  CreateMergeRequest : Int → String → String → String → String → Except String (Option MergeRequest)

/-- Go struct `Config` of `internal/bulkmr`. -/

structure Config where
  OriginBranch : String := ""
  TargetBranch : String := ""
  Projects : List String := []
  Verbose : Bool := false
deriving DecidableEq, Repr

/-- Embedding of `type ResultStatus string`. -/

abbrev ResultStatus := String

def StatusCreated : ResultStatus := "CREATED"

def StatusSkippedExists : ResultStatus := "SKIPPED_EXISTS"

def StatusSkippedDraft : ResultStatus := "SKIPPED_DRAFT"

def StatusSkippedBranch : ResultStatus := "SKIPPED_NO_BRANCH"

def StatusSkippedNoChange : ResultStatus := "SKIPPED_NO_CHANGE"

def StatusError : ResultStatus := "ERROR"

/-- Go struct `ProjectResult` of `internal/bulkmr`; field defaults are Go zero values. -/

structure ProjectResult where
  Project : String := ""
  Status : ResultStatus := ""
  MergeRequestID : Int := 0
  MergeRequestIID : Int := 0
  MergeRequestURL : String := ""
  ErrorMessage : String := ""
  Details : String := ""
deriving DecidableEq, Repr

/-- Go struct `Summary` of `internal/bulkmr`. -/

structure Summary where
  Total : Nat := 0
  Created : Nat := 0
  SkippedExists : Nat := 0
  SkippedDraft : Nat := 0
  SkippedBranch : Nat := 0
  SkippedNoChange : Nat := 0
  Errors : Nat := 0
deriving DecidableEq, Repr

/-- Ghost record of one Gateway call, with the arguments it was given. -/

inductive CallEvent where
  | getProject (path : String)
  | branchExists (projectID : Int) (branch : String)
  | findOpenMergeRequests (projectID : Int) (sourceBranch targetBranch : String)
  | compareBranches (projectID : Int) (sourceBranch targetBranch : String)
  | createMergeRequest (projectID : Int) (sourceBranch targetBranch title descriptionText : String)
deriving DecidableEq, Repr

def CallEvent.isCompareBranches : CallEvent → Bool
  | .compareBranches .. => true
  | _ => false

def CallEvent.isCreateMergeRequest : CallEvent → Bool
  | .createMergeRequest .. => true
  | _ => false

/-- The loop over `existingMRs` inside `processProject` (lines 148–176 of
the service): break with `SKIPPED_EXISTS` on the first non-draft MR, else
remember the draft; after the loop, if no non-draft was found and a draft
was remembered, report `SKIPPED_DRAFT` for the remembered (last) draft. -/

def scanExistingMRs (result : ProjectResult) :
    List MergeRequest → Option MergeRequest → ProjectResult
  | [], draftMR =>
    match draftMR with
    | some mr =>
      { result with
        Status := StatusSkippedDraft
        MergeRequestID := mr.ID
        MergeRequestIID := mr.IID
        MergeRequestURL := mr.WebURL
        Details := "Draft MR exists: !" ++ toString mr.IID ++ " (" ++ mr.Title ++ ")" }
    | none => result
  | mr :: rest, draftMR =>
    if !mr.IsDraft then
      { result with
        Status := StatusSkippedExists
        MergeRequestID := mr.ID
        MergeRequestIID := mr.IID
        MergeRequestURL := mr.WebURL
        Details := "Open MR already exists: !" ++ toString mr.IID }
    else
      scanExistingMRs result rest (some mr)

/-- Instrumented embedding of `Service.processProject`: the first component is the
returned `ProjectResult` (`none` models a nil-pointer-dereference panic),
the second is the ordered ghost list of Gateway calls issued. -/

def processProjectRun (client : GitLabClient) (config : Config)
    (projectPath : String) : Option ProjectResult × List CallEvent :=
  let result : ProjectResult := { Project := projectPath }
  let trace : List CallEvent := [CallEvent.getProject projectPath]
  match client.GetProject projectPath with
  | .error err =>
    (some { result with Status := StatusError, ErrorMessage := err }, trace)
  | .ok none => (none, trace)
  | .ok (some project) =>
    let trace := trace ++ [CallEvent.branchExists project.ID config.OriginBranch]
    match client.BranchExists project.ID config.OriginBranch with
    | .error err =>
      (some { result with
              Status := StatusError
              ErrorMessage := "failed to check origin branch: " ++ err }, trace)
    | .ok originExists =>
      if !originExists then
        (some { result with
                Status := StatusSkippedBranch
                Details := "Origin branch \x27" ++ config.OriginBranch ++
                  "\x27 does not exist" }, trace)
      else
        let trace := trace ++ [CallEvent.branchExists project.ID config.TargetBranch]
        match client.BranchExists project.ID config.TargetBranch with
        | .error err =>
          (some { result with
                  Status := StatusError
                  ErrorMessage := "failed to check target branch: " ++ err }, trace)
        | .ok targetExists =>
          if !targetExists then
            (some { result with
                    Status := StatusSkippedBranch
                    Details := "Target branch \x27" ++ config.TargetBranch ++
                      "\x27 does not exist" }, trace)
          else
            let trace := trace ++
              [CallEvent.findOpenMergeRequests project.ID config.OriginBranch config.TargetBranch]
            match client.FindOpenMergeRequests project.ID config.OriginBranch config.TargetBranch with
            | .error err =>
              (some { result with
                      Status := StatusError
                      ErrorMessage := "failed to find existing merge requests: " ++ err }, trace)
            | .ok existingMRs =>
              if existingMRs.length > 0 then
                (some (scanExistingMRs result existingMRs none), trace)
              else
                let trace := trace ++
                  [CallEvent.compareBranches project.ID config.OriginBranch config.TargetBranch]
                match client.CompareBranches project.ID config.OriginBranch config.TargetBranch with
                | .error err =>
                  (some { result with
                          Status := StatusError
                          ErrorMessage := "failed to compare branches: " ++ err }, trace)
                | .ok none => (none, trace)
                | .ok (some compare) =>
                  if !compare.HasChanges then
                    (some { result with
                            Status := StatusSkippedNoChange
                            Details := "No changes between " ++ config.OriginBranch ++
                              " and " ++ config.TargetBranch }, trace)
                  else
                    let title := "Merge " ++ config.OriginBranch ++ " into " ++ config.TargetBranch
                    let descriptionText :=
                      "This merge request was created automatically by gitlab-tools.\n\n**Source Branch**: `" ++
                        config.OriginBranch ++ "`\n**Target Branch**: `" ++
                        config.TargetBranch ++ "`"
                    let trace := trace ++
                      [CallEvent.createMergeRequest project.ID config.OriginBranch
                        config.TargetBranch title descriptionText]
                    match client.CreateMergeRequest project.ID config.OriginBranch
                        config.TargetBranch title descriptionText with
                    | .error err =>
                      (some { result with
                              Status := StatusError
                              ErrorMessage := "failed to create merge request: " ++ err }, trace)
                    | .ok none => (none, trace)
                    | .ok (some mr) =>
                      (some { result with
                              Status := StatusCreated
                              MergeRequestID := mr.ID
                              MergeRequestIID := mr.IID
                              MergeRequestURL := mr.WebURL
                              Details := "MR !" ++ toString mr.IID ++ ": " ++ mr.WebURL }, trace)

/-- The `ProjectResult` computed by `Service.processProject` (`none` models
a nil-pointer-dereference panic). -/

def processProject (client : GitLabClient) (config : Config)
    (projectPath : String) : Option ProjectResult :=
  (processProjectRun client config projectPath).1

/-- The ordered list of Gateway calls `Service.processProject` issues. -/

def processProjectCalls (client : GitLabClient) (config : Config)
    (projectPath : String) : List CallEvent :=
  (processProjectRun client config projectPath).2

/-- The `switch result.Status` counter bump in `ProcessProjects`. -/

def bumpSummary (summary : Summary) (status : ResultStatus) : Summary :=
  if status = StatusCreated then { summary with Created := summary.Created + 1 }
  else if status = StatusSkippedExists then { summary with SkippedExists := summary.SkippedExists + 1 }
  else if status = StatusSkippedDraft then { summary with SkippedDraft := summary.SkippedDraft + 1 }
  else if status = StatusSkippedBranch then { summary with SkippedBranch := summary.SkippedBranch + 1 }
  else if status = StatusSkippedNoChange then { summary with SkippedNoChange := summary.SkippedNoChange + 1 }
  else if status = StatusError then { summary with Errors := summary.Errors + 1 }
  else summary

/-- The per-path loop of `ProcessProjects`: one result per path, in order;
a panic (`none`) in any iteration aborts the program. -/

def processList (client : GitLabClient) (config : Config) :
    List String → Option (List ProjectResult)
  | [] => some []
  | p :: ps =>
    match processProject client config p with
    | none => none
    | some r =>
      match processList client config ps with
      | none => none
      | some rs => some (r :: rs)

/-- The summary tally of `ProcessProjects`: `Total` preset to the input
count, then one `bumpSummary` per result in order. -/

def tallySummary (total : Nat) (results : List ProjectResult) : Summary :=
  results.foldl (fun s r => bumpSummary s r.Status) { Total := total }

/-- Embedding of `Service.ProcessProjects`: the ordered result list plus the summary. -/

def ProcessProjects (client : GitLabClient) (config : Config) :
    Option (List ProjectResult × Summary) :=
  match processList client config config.Projects with
  | none => none
  | some results => some (results, tallySummary config.Projects.length results)

/-! ## Spec-side model, sample Gateways and other auxiliary definitions -/

/-- A deterministic in-memory Gateway like the test double: one known
project, both configured branches present, a fixed open-MR list, and a
one-commit difference. -/

def clientWith (mrs : List MergeRequest) : GitLabClient where
  GetProject := fun p =>
    .ok (some { ID := 1, Name := p, PathWithNamespace := p,
                WebURL := "https://gitlab.example.com/" ++ p })
  BranchExists := fun _ _ => .ok true
  CompareBranches := fun _ _ _ =>
    .ok (some { Commits := [{ ID := "abc123", ShortID := "abc123", Title := "Test commit" }] })
  FindOpenMergeRequests := fun _ _ _ => .ok mrs
  CreateMergeRequest := fun _ _ _ t _ =>
    .ok (some { ID := 999, IID := 99, Title := t,
                WebURL := "https://gitlab.example.com/merge_requests/99",
                State := "opened" })

def sampleConfig : Config :=
  { OriginBranch := "op-stage", TargetBranch := "op-rc", Projects := ["group/repo"] }

/-- The project record `clientWith` resolves for the path `group/repo`. -/
def sampleProject : Project :=
  { ID := 1, Name := "group/repo", PathWithNamespace := "group/repo",
    WebURL := "https://gitlab.example.com/" ++ "group/repo" }

def draftMR1 : MergeRequest :=
  { ID := 200, IID := 20, Title := "Draft: Merge op-stage into op-rc",
    WebURL := "https://gitlab.example.com/mr/20" }

def nonDraftMR1 : MergeRequest :=
  { ID := 100, IID := 10, Title := "Merge op-stage into op-rc",
    WebURL := "https://gitlab.example.com/mr/10" }

/-- A Gateway whose project lookup answers `(nil, nil)` for every path, as
the in-repository test double does for unknown paths. -/

def nilProjectClient : GitLabClient where
  GetProject := fun _ => .ok none
  BranchExists := fun _ _ => .ok false
  CompareBranches := fun _ _ _ => .ok none
  FindOpenMergeRequests := fun _ _ _ => .ok []
  CreateMergeRequest := fun _ _ _ _ _ => .ok none

/-- The draft predicate exactly as the specification words it: true if the
boolean flag is true, else true iff the trimmed, case-folded title starts
with `draft:` or `wip:`. -/

def isDraftSpec (draftFlag : Bool) (title : String) : Bool :=
  if draftFlag then
    true
  else
    let t := toLowerGo (trimGo title)
    startsWithGo t "draft:" || startsWithGo t "wip:"

/-- A Gateway where only the target branch `op-rc` exists. -/

def noOriginClient : GitLabClient where
  GetProject := fun p =>
    .ok (some { ID := 4, Name := p, PathWithNamespace := p,
                WebURL := "https://gitlab.example.com/" ++ p })
  BranchExists := fun _ b => .ok (b = "op-rc")
  CompareBranches := fun _ _ _ => .error "not reached"
  FindOpenMergeRequests := fun _ _ _ => .error "not reached"
  CreateMergeRequest := fun _ _ _ _ _ => .error "not reached"

/-- A Gateway with both branches, no open MRs and an empty comparison. -/

def noChangeClient : GitLabClient where
  GetProject := fun p =>
    .ok (some { ID := 5, Name := p, PathWithNamespace := p,
                WebURL := "https://gitlab.example.com/" ++ p })
  BranchExists := fun _ _ => .ok true
  CompareBranches := fun _ _ _ => .ok (some { Commits := [] })
  FindOpenMergeRequests := fun _ _ _ => .ok []
  CreateMergeRequest := fun _ _ _ _ _ => .error "not reached"

/-- A Gateway whose project lookup always fails. -/

def failingClient : GitLabClient where
  GetProject := fun _ => .error "failed to get project group/x: boom"
  BranchExists := fun _ _ => .error "boom"
  CompareBranches := fun _ _ _ => .error "boom"
  FindOpenMergeRequests := fun _ _ _ => .error "boom"
  CreateMergeRequest := fun _ _ _ _ _ => .error "boom"

/-- The closed status enumeration. -/

def statusList : List ResultStatus :=
  [StatusCreated, StatusSkippedExists, StatusSkippedDraft,
   StatusSkippedBranch, StatusSkippedNoChange, StatusError]

/-- The sum of the six per-status counters. -/

def counterSum (s : Summary) : Nat :=
  s.Created + s.SkippedExists + s.SkippedDraft + s.SkippedBranch +
    s.SkippedNoChange + s.Errors

/-- The result the sample creating Gateway produces for `group/repo`. -/

def createdSampleResult : ProjectResult :=
  { Project := "group/repo"
    Status := StatusCreated
    MergeRequestID := 999
    MergeRequestIID := 99
    MergeRequestURL := "https://gitlab.example.com/merge_requests/99"
    Details := "MR !99: https://gitlab.example.com/merge_requests/99" }

/-- A configuration listing the same repository twice. -/

def dupConfig : Config :=
  { OriginBranch := "op-stage", TargetBranch := "op-rc",
    Projects := ["group/repo", "group/repo"] }

/-! ## Step lemmas: how `processProjectRun` reduces under fixed Gateway answers -/

theorem run_getProject_error {client : GitLabClient} {config : Config}
    {projectPath err : String}
    (hp : client.GetProject projectPath = .error err) :
    processProjectRun client config projectPath =
      (some { Project := projectPath, Status := StatusError, ErrorMessage := err },
       [CallEvent.getProject projectPath]) := by
  simp only [processProjectRun, hp]

theorem run_getProject_nil {client : GitLabClient} {config : Config}
    {projectPath : String}
    (hp : client.GetProject projectPath = .ok none) :
    processProjectRun client config projectPath =
      (none, [CallEvent.getProject projectPath]) := by
  simp only [processProjectRun, hp]

theorem run_origin_error {client : GitLabClient} {config : Config}
    {projectPath err : String} {project : Project}
    (hp : client.GetProject projectPath = .ok (some project))
    (ho : client.BranchExists project.ID config.OriginBranch = .error err) :
    processProjectRun client config projectPath =
      (some { Project := projectPath, Status := StatusError,
              ErrorMessage := "failed to check origin branch: " ++ err },
       [CallEvent.getProject projectPath,
        CallEvent.branchExists project.ID config.OriginBranch]) := by
  simp [processProjectRun, hp, ho]

theorem run_origin_missing {client : GitLabClient} {config : Config}
    {projectPath : String} {project : Project}
    (hp : client.GetProject projectPath = .ok (some project))
    (ho : client.BranchExists project.ID config.OriginBranch = .ok false) :
    processProjectRun client config projectPath =
      (some { Project := projectPath, Status := StatusSkippedBranch,
              Details := "Origin branch \x27" ++ config.OriginBranch ++
                "\x27 does not exist" },
       [CallEvent.getProject projectPath,
        CallEvent.branchExists project.ID config.OriginBranch]) := by
  simp [processProjectRun, hp, ho]

theorem run_target_error {client : GitLabClient} {config : Config}
    {projectPath err : String} {project : Project}
    (hp : client.GetProject projectPath = .ok (some project))
    (ho : client.BranchExists project.ID config.OriginBranch = .ok true)
    (ht : client.BranchExists project.ID config.TargetBranch = .error err) :
    processProjectRun client config projectPath =
      (some { Project := projectPath, Status := StatusError,
              ErrorMessage := "failed to check target branch: " ++ err },
       [CallEvent.getProject projectPath,
        CallEvent.branchExists project.ID config.OriginBranch,
        CallEvent.branchExists project.ID config.TargetBranch]) := by
  simp [processProjectRun, hp, ho, ht]

theorem run_target_missing {client : GitLabClient} {config : Config}
    {projectPath : String} {project : Project}
    (hp : client.GetProject projectPath = .ok (some project))
    (ho : client.BranchExists project.ID config.OriginBranch = .ok true)
    (ht : client.BranchExists project.ID config.TargetBranch = .ok false) :
    processProjectRun client config projectPath =
      (some { Project := projectPath, Status := StatusSkippedBranch,
              Details := "Target branch \x27" ++ config.TargetBranch ++
                "\x27 does not exist" },
       [CallEvent.getProject projectPath,
        CallEvent.branchExists project.ID config.OriginBranch,
        CallEvent.branchExists project.ID config.TargetBranch]) := by
  simp [processProjectRun, hp, ho, ht]

theorem run_query_error {client : GitLabClient} {config : Config}
    {projectPath err : String} {project : Project}
    (hp : client.GetProject projectPath = .ok (some project))
    (ho : client.BranchExists project.ID config.OriginBranch = .ok true)
    (ht : client.BranchExists project.ID config.TargetBranch = .ok true)
    (hq : client.FindOpenMergeRequests project.ID config.OriginBranch
            config.TargetBranch = .error err) :
    processProjectRun client config projectPath =
      (some { Project := projectPath, Status := StatusError,
              ErrorMessage := "failed to find existing merge requests: " ++ err },
       [CallEvent.getProject projectPath,
        CallEvent.branchExists project.ID config.OriginBranch,
        CallEvent.branchExists project.ID config.TargetBranch,
        CallEvent.findOpenMergeRequests project.ID config.OriginBranch
          config.TargetBranch]) := by
  simp [processProjectRun, hp, ho, ht, hq]

theorem run_query_nonempty {client : GitLabClient} {config : Config}
    {projectPath : String} {project : Project} {mrs : List MergeRequest}
    (hp : client.GetProject projectPath = .ok (some project))
    (ho : client.BranchExists project.ID config.OriginBranch = .ok true)
    (ht : client.BranchExists project.ID config.TargetBranch = .ok true)
    (hq : client.FindOpenMergeRequests project.ID config.OriginBranch
            config.TargetBranch = .ok mrs)
    (hne : mrs ≠ []) :
    processProjectRun client config projectPath =
      (some (scanExistingMRs { Project := projectPath } mrs none),
       [CallEvent.getProject projectPath,
        CallEvent.branchExists project.ID config.OriginBranch,
        CallEvent.branchExists project.ID config.TargetBranch,
        CallEvent.findOpenMergeRequests project.ID config.OriginBranch
          config.TargetBranch]) := by
  have hlen : mrs.length > 0 := List.length_pos.mpr hne
  simp [processProjectRun, hp, ho, ht, hq, hlen]

theorem run_query_empty {client : GitLabClient} {config : Config}
    {projectPath : String} {project : Project}
    (hp : client.GetProject projectPath = .ok (some project))
    (ho : client.BranchExists project.ID config.OriginBranch = .ok true)
    (ht : client.BranchExists project.ID config.TargetBranch = .ok true)
    (hq : client.FindOpenMergeRequests project.ID config.OriginBranch
            config.TargetBranch = .ok []) :
    processProjectRun client config projectPath =
      (let trace :=
        [CallEvent.getProject projectPath,
         CallEvent.branchExists project.ID config.OriginBranch,
         CallEvent.branchExists project.ID config.TargetBranch,
         CallEvent.findOpenMergeRequests project.ID config.OriginBranch
           config.TargetBranch,
         CallEvent.compareBranches project.ID config.OriginBranch config.TargetBranch]
       match client.CompareBranches project.ID config.OriginBranch config.TargetBranch with
       | .error err =>
         (some { Project := projectPath, Status := StatusError,
                 ErrorMessage := "failed to compare branches: " ++ err }, trace)
       | .ok none => (none, trace)
       | .ok (some compare) =>
         if !compare.HasChanges then
           (some { Project := projectPath, Status := StatusSkippedNoChange,
                   Details := "No changes between " ++ config.OriginBranch ++
                     " and " ++ config.TargetBranch }, trace)
         else
           let title := "Merge " ++ config.OriginBranch ++ " into " ++ config.TargetBranch
           let descriptionText :=
             "This merge request was created automatically by gitlab-tools.\n\n**Source Branch**: `" ++
               config.OriginBranch ++ "`\n**Target Branch**: `" ++
               config.TargetBranch ++ "`"
           let trace := trace ++
             [CallEvent.createMergeRequest project.ID config.OriginBranch
               config.TargetBranch title descriptionText]
           match client.CreateMergeRequest project.ID config.OriginBranch
               config.TargetBranch title descriptionText with
           | .error err =>
             (some { Project := projectPath, Status := StatusError,
                     ErrorMessage := "failed to create merge request: " ++ err }, trace)
           | .ok none => (none, trace)
           | .ok (some mr) =>
             (some { Project := projectPath, Status := StatusCreated,
                     MergeRequestID := mr.ID, MergeRequestIID := mr.IID,
                     MergeRequestURL := mr.WebURL,
                     Details := "MR !" ++ toString mr.IID ++ ": " ++ mr.WebURL }, trace)) := by
  simp [processProjectRun, hp, ho, ht, hq]

/-! ## Lemmas about the existing-MR scan -/

theorem scan_first_nonDraft (result : ProjectResult) :
    ∀ (pre : List MergeRequest) (mr : MergeRequest) (post : List MergeRequest)
      (d : Option MergeRequest),
      (∀ m ∈ pre, m.IsDraft = true) → mr.IsDraft = false →
      scanExistingMRs result (pre ++ mr :: post) d =
        { result with
          Status := StatusSkippedExists
          MergeRequestID := mr.ID
          MergeRequestIID := mr.IID
          MergeRequestURL := mr.WebURL
          Details := "Open MR already exists: !" ++ toString mr.IID } := by
  intro pre
  induction pre with
  | nil =>
    intro mr post d _ hnd
    simp [scanExistingMRs, hnd]
  | cons m rest ih =>
    intro mr post d hpre hnd
    have hm : m.IsDraft = true := hpre m (by simp)
    simp only [List.cons_append, scanExistingMRs, hm, Bool.not_true,
      Bool.false_eq_true, if_false]
    exact ih mr post (some m) (fun x hx => hpre x (by simp [hx])) hnd

theorem scan_all_drafts (result : ProjectResult) :
    ∀ (mrs : List MergeRequest) (d : Option MergeRequest) (mr : MergeRequest),
      (∀ m ∈ mrs, m.IsDraft = true) → mrs.getLast? = some mr →
      scanExistingMRs result mrs d =
        { result with
          Status := StatusSkippedDraft
          MergeRequestID := mr.ID
          MergeRequestIID := mr.IID
          MergeRequestURL := mr.WebURL
          Details := "Draft MR exists: !" ++ toString mr.IID ++ " (" ++ mr.Title ++ ")" } := by
  intro mrs
  induction mrs with
  | nil =>
    intro d mr _ hlast
    simp [List.getLast?] at hlast
  | cons m rest ih =>
    intro d mr hall hlast
    have hm : m.IsDraft = true := hall m (by simp)
    cases rest with
    | nil =>
      simp only [List.getLast?_singleton, Option.some.injEq] at hlast
      subst hlast
      simp [scanExistingMRs, hm]
    | cons b t =>
      have hlast' : (b :: t).getLast? = some mr := by
        rw [List.getLast?_cons_cons] at hlast
        exact hlast
      simp only [scanExistingMRs, hm, Bool.not_true, Bool.false_eq_true, if_false]
      exact ih (some m) mr (fun x hx => hall x (by simp [hx])) hlast'

theorem scan_exists_nonDraft (result : ProjectResult) :
    ∀ (mrs : List MergeRequest) (d : Option MergeRequest),
      (∃ mr ∈ mrs, mr.IsDraft = false) →
      (scanExistingMRs result mrs d).Status = StatusSkippedExists := by
  intro mrs
  induction mrs with
  | nil =>
    intro d h
    simp at h
  | cons m rest ih =>
    intro d h
    by_cases hm : m.IsDraft = false
    · simp [scanExistingMRs, hm]
    · have hm' : m.IsDraft = true := by
        cases hb : m.IsDraft
        · exact absurd hb hm
        · rfl
      simp only [scanExistingMRs, hm', Bool.not_true, Bool.false_eq_true, if_false]
      rcases h with ⟨mr, hmem, hnd⟩
      rcases List.mem_cons.mp hmem with heq | hmem'
      · subst heq
        exact absurd hnd hm
      · exact ih (some m) ⟨mr, hmem', hnd⟩

theorem scan_status (result : ProjectResult) :
    ∀ (mrs : List MergeRequest) (d : Option MergeRequest),
      mrs ≠ [] ∨ d.isSome = true →
      (scanExistingMRs result mrs d).Status = StatusSkippedExists ∨
      (scanExistingMRs result mrs d).Status = StatusSkippedDraft := by
  intro mrs
  induction mrs with
  | nil =>
    intro d h
    rcases h with h | h
    · exact absurd rfl h
    · rcases d with _ | mr
      · simp at h
      · right
        simp [scanExistingMRs]
  | cons m rest ih =>
    intro d _
    by_cases hm : m.IsDraft = true
    · simp only [scanExistingMRs, hm, Bool.not_true, Bool.false_eq_true, if_false]
      exact ih (some m) (Or.inr rfl)
    · have hm' : m.IsDraft = false := by
        cases hb : m.IsDraft
        · rfl
        · exact absurd hb hm
      left
      simp [scanExistingMRs, hm']

theorem scan_Project (result : ProjectResult) :
    ∀ (mrs : List MergeRequest) (d : Option MergeRequest),
      (scanExistingMRs result mrs d).Project = result.Project := by
  intro mrs
  induction mrs with
  | nil =>
    intro d
    rcases d with _ | mr <;> simp [scanExistingMRs]
  | cons m rest ih =>
    intro d
    by_cases hm : m.IsDraft = true
    · simp only [scanExistingMRs, hm, Bool.not_true, Bool.false_eq_true, if_false]
      exact ih (some m)
    · have hm' : m.IsDraft = false := by
        cases hb : m.IsDraft
        · rfl
        · exact absurd hb hm
      simp [scanExistingMRs, hm']

/-! ## Claim theorems -/

/-- C3: `IsDraft` returns true iff the `Draft` flag is true or the trimmed,
lower-cased title starts with `draft:` or `wip:`; in particular a title
that merely contains the word `Draft` is not a draft. -/

theorem C3_isDraft_characterisation :
    (∀ mr : MergeRequest, mr.IsDraft = isDraftSpec mr.Draft mr.Title) ∧
    ({ Title := "This is a Draft version" } : MergeRequest).IsDraft = false := by
  constructor
  · intro mr
    rfl
  · decide

/-- C1: when the open-MR query returns a non-empty list, the result is a
single in-order scan of it: the first non-draft MR yields `SKIPPED_EXISTS`
with its ID/IID/URL and a detail citing its display number, regardless of
what follows it; if every request is a draft, the last draft in iteration
order yields `SKIPPED_DRAFT` with its ID/IID/URL and a detail citing its
display number and title. -/

theorem C1_existing_mr_scan {client : GitLabClient} {config : Config}
    {projectPath : String} {project : Project} {mrs : List MergeRequest}
    (hp : client.GetProject projectPath = .ok (some project))
    (ho : client.BranchExists project.ID config.OriginBranch = .ok true)
    (ht : client.BranchExists project.ID config.TargetBranch = .ok true)
    (hq : client.FindOpenMergeRequests project.ID config.OriginBranch
            config.TargetBranch = .ok mrs)
    (hne : mrs ≠ []) :
    (∀ pre mr post, mrs = pre ++ mr :: post →
      (∀ m ∈ pre, m.IsDraft = true) → mr.IsDraft = false →
      processProject client config projectPath =
        some { Project := projectPath
               Status := StatusSkippedExists
               MergeRequestID := mr.ID
               MergeRequestIID := mr.IID
               MergeRequestURL := mr.WebURL
               Details := "Open MR already exists: !" ++ toString mr.IID }) ∧
    (∀ mr, (∀ m ∈ mrs, m.IsDraft = true) → mrs.getLast? = some mr →
      processProject client config projectPath =
        some { Project := projectPath
               Status := StatusSkippedDraft
               MergeRequestID := mr.ID
               MergeRequestIID := mr.IID
               MergeRequestURL := mr.WebURL
               Details := "Draft MR exists: !" ++ toString mr.IID ++
                 " (" ++ mr.Title ++ ")" }) := by
  have hrun := run_query_nonempty hp ho ht hq hne
  constructor
  · intro pre mr post hdecomp hpre hnd
    subst hdecomp
    simp only [processProject, hrun]
    rw [scan_first_nonDraft _ pre mr post none hpre hnd]
  · intro mr hall hlast
    simp only [processProject, hrun]
    rw [scan_all_drafts _ mrs none mr hall hlast]

/-- C1 witness: with one draft followed by one non-draft, the run stops at
the non-draft with `SKIPPED_EXISTS` and its coordinates. -/

theorem C1_existing_mr_scan_witness :
    processProject (clientWith [draftMR1, nonDraftMR1]) sampleConfig "group/repo" =
      some { Project := "group/repo"
             Status := StatusSkippedExists
             MergeRequestID := nonDraftMR1.ID
             MergeRequestIID := nonDraftMR1.IID
             MergeRequestURL := nonDraftMR1.WebURL
             Details := "Open MR already exists: !" ++ toString nonDraftMR1.IID } :=
  (@C1_existing_mr_scan (clientWith [draftMR1, nonDraftMR1]) sampleConfig
      "group/repo" sampleProject [draftMR1, nonDraftMR1]
      rfl rfl rfl rfl (by decide)).1
    [draftMR1] nonDraftMR1 [] rfl (by decide) (by decide)

/-- C2: once the open-MR query returns a non-empty list, the per-repository
procedure issues no comparison call and no creation call, the status is
never `CREATED`, and if a non-draft open MR is among them the status is
`SKIPPED_EXISTS`. -/

theorem C2_existing_mrs_block_creation {client : GitLabClient} {config : Config}
    {projectPath : String} {project : Project} {mrs : List MergeRequest}
    (hp : client.GetProject projectPath = .ok (some project))
    (ho : client.BranchExists project.ID config.OriginBranch = .ok true)
    (ht : client.BranchExists project.ID config.TargetBranch = .ok true)
    (hq : client.FindOpenMergeRequests project.ID config.OriginBranch
            config.TargetBranch = .ok mrs)
    (hne : mrs ≠ []) :
    ((processProjectCalls client config projectPath).all
       (fun e => !e.isCompareBranches && !e.isCreateMergeRequest) = true) ∧
    (∀ r, processProject client config projectPath = some r →
      r.Status ≠ StatusCreated) ∧
    ((∃ mr ∈ mrs, mr.IsDraft = false) →
      ∃ r, processProject client config projectPath = some r ∧
        r.Status = StatusSkippedExists) := by
  have hrun := run_query_nonempty hp ho ht hq hne
  refine ⟨?_, ?_, ?_⟩
  · simp [processProjectCalls, hrun, CallEvent.isCompareBranches,
      CallEvent.isCreateMergeRequest]
  · intro r hr
    simp only [processProject, hrun] at hr
    have hr' : scanExistingMRs { Project := projectPath } mrs none = r :=
      Option.some.injEq _ _ ▸ hr
    rcases scan_status { Project := projectPath } mrs none (Or.inl hne) with h | h
    · rw [hr'] at h
      rw [h]
      decide
    · rw [hr'] at h
      rw [h]
      decide
  · intro hex
    refine ⟨scanExistingMRs { Project := projectPath } mrs none, ?_, ?_⟩
    · simp only [processProject, hrun]
    · exact scan_exists_nonDraft _ mrs none hex

/-- C2 witness: with a single non-draft open MR, no compare/create call is
issued, no `CREATED` status can arise, and the result is `SKIPPED_EXISTS`. -/

theorem C2_existing_mrs_block_creation_witness :
    ((processProjectCalls (clientWith [nonDraftMR1]) sampleConfig "group/repo").all
       (fun e => !e.isCompareBranches && !e.isCreateMergeRequest) = true) ∧
    (∀ r, processProject (clientWith [nonDraftMR1]) sampleConfig "group/repo" = some r →
      r.Status ≠ StatusCreated) ∧
    ((∃ mr ∈ [nonDraftMR1], mr.IsDraft = false) →
      ∃ r, processProject (clientWith [nonDraftMR1]) sampleConfig "group/repo" = some r ∧
        r.Status = StatusSkippedExists) :=
  @C2_existing_mrs_block_creation (clientWith [nonDraftMR1]) sampleConfig
    "group/repo" sampleProject [nonDraftMR1] rfl rfl rfl rfl (by decide)

/-- C10: whenever `GetProject` returns a nil project together with a nil
error, `processProject` dereferences the nil pointer — modelled as `none` —
instead of producing an `ERROR` result. -/

theorem C10_nil_project_dereference {client : GitLabClient} {config : Config}
    {projectPath : String}
    (hp : client.GetProject projectPath = .ok none) :
    processProject client config projectPath = none := by
  simp [processProject, run_getProject_nil hp]

/-- C10 witness: against the nil-returning double, the reconciliation of an
unknown path panics rather than reporting `ERROR`. -/

theorem C10_nil_project_dereference_witness :
    processProject nilProjectClient sampleConfig "group/unknown" = none :=
  C10_nil_project_dereference rfl

/-- C4: a missing origin branch terminates the reconciliation with
`SKIPPED_NO_BRANCH`, a detail naming the origin branch, and a call trace
showing that the target branch was never checked and no query, comparison
or creation call was made; a missing target branch (with the origin
present) likewise terminates with `SKIPPED_NO_BRANCH` naming the target. -/

theorem C4_branch_gating {client : GitLabClient} {config : Config}
    {projectPath : String} {project : Project}
    (hp : client.GetProject projectPath = .ok (some project)) :
    (client.BranchExists project.ID config.OriginBranch = .ok false →
      processProjectRun client config projectPath =
        (some { Project := projectPath
                Status := StatusSkippedBranch
                Details := "Origin branch \x27" ++ config.OriginBranch ++
                  "\x27 does not exist" },
         [CallEvent.getProject projectPath,
          CallEvent.branchExists project.ID config.OriginBranch])) ∧
    (client.BranchExists project.ID config.OriginBranch = .ok true →
     client.BranchExists project.ID config.TargetBranch = .ok false →
      processProjectRun client config projectPath =
        (some { Project := projectPath
                Status := StatusSkippedBranch
                Details := "Target branch \x27" ++ config.TargetBranch ++
                  "\x27 does not exist" },
         [CallEvent.getProject projectPath,
          CallEvent.branchExists project.ID config.OriginBranch,
          CallEvent.branchExists project.ID config.TargetBranch])) :=
  ⟨fun ho => run_origin_missing hp ho,
   fun ho ht => run_target_missing hp ho ht⟩

/-- C4 witness: origin `op-stage` absent, target `op-rc` present — the
result is `SKIPPED_NO_BRANCH` naming the origin, after exactly two calls. -/

theorem C4_branch_gating_witness :
    processProjectRun noOriginClient sampleConfig "group/repo-d" =
      (some { Project := "group/repo-d"
              Status := StatusSkippedBranch
              Details := "Origin branch \x27op-stage\x27 does not exist" },
       [CallEvent.getProject "group/repo-d",
        CallEvent.branchExists 4 "op-stage"]) :=
  (@C4_branch_gating noOriginClient sampleConfig "group/repo-d"
      { ID := 4, Name := "group/repo-d", PathWithNamespace := "group/repo-d",
        WebURL := "https://gitlab.example.com/" ++ "group/repo-d" }
      rfl).1 rfl

/-- C5: with both branches present and no open MRs, an empty comparison
commit list yields `SKIPPED_NO_CHANGE` with a detail naming both branches
and no creation call in the trace; moreover `HasChanges` is exactly
non-emptiness of the commit list and ignores the file-diff content. -/

theorem C5_no_change_detection {client : GitLabClient} {config : Config}
    {projectPath : String} {project : Project} {compare : Compare}
    (hp : client.GetProject projectPath = .ok (some project))
    (ho : client.BranchExists project.ID config.OriginBranch = .ok true)
    (ht : client.BranchExists project.ID config.TargetBranch = .ok true)
    (hq : client.FindOpenMergeRequests project.ID config.OriginBranch
            config.TargetBranch = .ok [])
    (hc : client.CompareBranches project.ID config.OriginBranch
            config.TargetBranch = .ok (some compare))
    (hnc : compare.Commits = []) :
    (processProjectRun client config projectPath =
      (some { Project := projectPath
              Status := StatusSkippedNoChange
              Details := "No changes between " ++ config.OriginBranch ++
                " and " ++ config.TargetBranch },
       [CallEvent.getProject projectPath,
        CallEvent.branchExists project.ID config.OriginBranch,
        CallEvent.branchExists project.ID config.TargetBranch,
        CallEvent.findOpenMergeRequests project.ID config.OriginBranch
          config.TargetBranch,
        CallEvent.compareBranches project.ID config.OriginBranch
          config.TargetBranch])) ∧
    (∀ c : Compare, c.HasChanges = !c.Commits.isEmpty) ∧
    (∀ (c : Compare) (ds : List Diff) (cm : Commit),
      Compare.HasChanges { c with Diffs := ds, Commit := cm } = c.HasChanges) := by
  refine ⟨?_, ?_, ?_⟩
  · rw [run_query_empty hp ho ht hq]
    simp [hc, Compare.HasChanges, hnc]
  · intro c
    cases hcm : c.Commits <;> simp [Compare.HasChanges, hcm]
  · intro c ds cm
    rfl

/-- C5 witness: empty comparison on `noChangeClient` gives
`SKIPPED_NO_CHANGE` naming both branches, and no creation call. -/

theorem C5_no_change_detection_witness :
    (processProjectRun noChangeClient sampleConfig "group/repo" =
      (some { Project := "group/repo"
              Status := StatusSkippedNoChange
              Details := "No changes between op-stage and op-rc" },
       [CallEvent.getProject "group/repo",
        CallEvent.branchExists 5 "op-stage",
        CallEvent.branchExists 5 "op-rc",
        CallEvent.findOpenMergeRequests 5 "op-stage" "op-rc",
        CallEvent.compareBranches 5 "op-stage" "op-rc"])) ∧
    (∀ c : Compare, c.HasChanges = !c.Commits.isEmpty) ∧
    (∀ (c : Compare) (ds : List Diff) (cm : Commit),
      Compare.HasChanges { c with Diffs := ds, Commit := cm } = c.HasChanges) :=
  @C5_no_change_detection noChangeClient sampleConfig "group/repo"
    { ID := 5, Name := "group/repo", PathWithNamespace := "group/repo",
      WebURL := "https://gitlab.example.com/" ++ "group/repo" }
    { Commits := [] } rfl rfl rfl rfl rfl rfl

/-- C9: when creation is reached, the creation call receives exactly the
title `Merge <source> into <target>` and the tool-identifying description
restating both branches; a successful creation yields `CREATED` with the
ID/IID/URL of the new MR and a detail citing its display number and URL, and a
failed creation yields `ERROR` with the creation failure message. -/

theorem C9_creation {client : GitLabClient} {config : Config}
    {projectPath : String} {project : Project} {compare : Compare}
    (hp : client.GetProject projectPath = .ok (some project))
    (ho : client.BranchExists project.ID config.OriginBranch = .ok true)
    (ht : client.BranchExists project.ID config.TargetBranch = .ok true)
    (hq : client.FindOpenMergeRequests project.ID config.OriginBranch
            config.TargetBranch = .ok [])
    (hc : client.CompareBranches project.ID config.OriginBranch
            config.TargetBranch = .ok (some compare))
    (hch : compare.HasChanges = true) :
    (processProjectCalls client config projectPath =
      [CallEvent.getProject projectPath,
       CallEvent.branchExists project.ID config.OriginBranch,
       CallEvent.branchExists project.ID config.TargetBranch,
       CallEvent.findOpenMergeRequests project.ID config.OriginBranch
         config.TargetBranch,
       CallEvent.compareBranches project.ID config.OriginBranch
         config.TargetBranch,
       CallEvent.createMergeRequest project.ID config.OriginBranch
         config.TargetBranch
         ("Merge " ++ config.OriginBranch ++ " into " ++ config.TargetBranch)
         ("This merge request was created automatically by gitlab-tools.\n\n**Source Branch**: `" ++
           config.OriginBranch ++ "`\n**Target Branch**: `" ++
           config.TargetBranch ++ "`")]) ∧
    (∀ mr, client.CreateMergeRequest project.ID config.OriginBranch config.TargetBranch
        ("Merge " ++ config.OriginBranch ++ " into " ++ config.TargetBranch)
        ("This merge request was created automatically by gitlab-tools.\n\n**Source Branch**: `" ++
          config.OriginBranch ++ "`\n**Target Branch**: `" ++
          config.TargetBranch ++ "`") = .ok (some mr) →
      processProject client config projectPath =
        some { Project := projectPath
               Status := StatusCreated
               MergeRequestID := mr.ID
               MergeRequestIID := mr.IID
               MergeRequestURL := mr.WebURL
               Details := "MR !" ++ toString mr.IID ++ ": " ++ mr.WebURL }) ∧
    (∀ err, client.CreateMergeRequest project.ID config.OriginBranch config.TargetBranch
        ("Merge " ++ config.OriginBranch ++ " into " ++ config.TargetBranch)
        ("This merge request was created automatically by gitlab-tools.\n\n**Source Branch**: `" ++
          config.OriginBranch ++ "`\n**Target Branch**: `" ++
          config.TargetBranch ++ "`") = .error err →
      processProject client config projectPath =
        some { Project := projectPath
               Status := StatusError
               ErrorMessage := "failed to create merge request: " ++ err }) := by
  refine ⟨?_, ?_, ?_⟩
  · rw [processProjectCalls, run_query_empty hp ho ht hq]
    cases hcr : client.CreateMergeRequest project.ID config.OriginBranch config.TargetBranch
        ("Merge " ++ config.OriginBranch ++ " into " ++ config.TargetBranch)
        ("This merge request was created automatically by gitlab-tools.\n\n**Source Branch**: `" ++
          config.OriginBranch ++ "`\n**Target Branch**: `" ++
          config.TargetBranch ++ "`") with
    | error e => simp [hc, hch, hcr]
    | ok o => cases o <;> simp [hc, hch, hcr]
  · intro mr hcr
    rw [processProject, run_query_empty hp ho ht hq]
    simp [hc, hch, hcr]
  · intro err hcr
    rw [processProject, run_query_empty hp ho ht hq]
    simp [hc, hch, hcr]

/-- C9 witness: on the creating Gateway, the result is `CREATED` with the
coordinates and detail line of the new MR. -/

theorem C9_creation_witness :
    processProject (clientWith []) sampleConfig "group/repo" =
      some { Project := "group/repo"
             Status := StatusCreated
             MergeRequestID := 999
             MergeRequestIID := 99
             MergeRequestURL := "https://gitlab.example.com/merge_requests/99"
             Details := "MR !" ++ toString (99 : Int) ++
               ": " ++ "https://gitlab.example.com/merge_requests/99" } :=
  (@C9_creation (clientWith []) sampleConfig "group/repo" sampleProject
    { Commits := [{ ID := "abc123", ShortID := "abc123", Title := "Test commit" }] }
    rfl rfl rfl rfl rfl rfl).2.1
    { ID := 999, IID := 99, Title := "Merge op-stage into op-rc",
      WebURL := "https://gitlab.example.com/merge_requests/99", State := "opened" }
    rfl

/-- C7: each of the five Gateway failure points yields a terminal `ERROR`
result for that repository with a context-wrapped message and no further
calls, and a failed repository never stops the remaining ones from being
processed. -/

theorem C7_error_isolation (client : GitLabClient) (config : Config)
    (projectPath : String) (project : Project) (err : String) :
    (client.GetProject projectPath = .error err →
      processProjectRun client config projectPath =
        (some { Project := projectPath, Status := StatusError, ErrorMessage := err },
         [CallEvent.getProject projectPath])) ∧
    (client.GetProject projectPath = .ok (some project) →
     client.BranchExists project.ID config.OriginBranch = .error err →
      processProjectRun client config projectPath =
        (some { Project := projectPath
                Status := StatusError
                ErrorMessage := "failed to check origin branch: " ++ err },
         [CallEvent.getProject projectPath,
          CallEvent.branchExists project.ID config.OriginBranch])) ∧
    (client.GetProject projectPath = .ok (some project) →
     client.BranchExists project.ID config.OriginBranch = .ok true →
     client.BranchExists project.ID config.TargetBranch = .error err →
      processProjectRun client config projectPath =
        (some { Project := projectPath
                Status := StatusError
                ErrorMessage := "failed to check target branch: " ++ err },
         [CallEvent.getProject projectPath,
          CallEvent.branchExists project.ID config.OriginBranch,
          CallEvent.branchExists project.ID config.TargetBranch])) ∧
    (client.GetProject projectPath = .ok (some project) →
     client.BranchExists project.ID config.OriginBranch = .ok true →
     client.BranchExists project.ID config.TargetBranch = .ok true →
     client.FindOpenMergeRequests project.ID config.OriginBranch
       config.TargetBranch = .error err →
      processProjectRun client config projectPath =
        (some { Project := projectPath
                Status := StatusError
                ErrorMessage := "failed to find existing merge requests: " ++ err },
         [CallEvent.getProject projectPath,
          CallEvent.branchExists project.ID config.OriginBranch,
          CallEvent.branchExists project.ID config.TargetBranch,
          CallEvent.findOpenMergeRequests project.ID config.OriginBranch
            config.TargetBranch])) ∧
    (client.GetProject projectPath = .ok (some project) →
     client.BranchExists project.ID config.OriginBranch = .ok true →
     client.BranchExists project.ID config.TargetBranch = .ok true →
     client.FindOpenMergeRequests project.ID config.OriginBranch
       config.TargetBranch = .ok [] →
     client.CompareBranches project.ID config.OriginBranch
       config.TargetBranch = .error err →
      processProjectRun client config projectPath =
        (some { Project := projectPath
                Status := StatusError
                ErrorMessage := "failed to compare branches: " ++ err },
         [CallEvent.getProject projectPath,
          CallEvent.branchExists project.ID config.OriginBranch,
          CallEvent.branchExists project.ID config.TargetBranch,
          CallEvent.findOpenMergeRequests project.ID config.OriginBranch
            config.TargetBranch,
          CallEvent.compareBranches project.ID config.OriginBranch
            config.TargetBranch])) ∧
    (∀ compare : Compare,
     client.GetProject projectPath = .ok (some project) →
     client.BranchExists project.ID config.OriginBranch = .ok true →
     client.BranchExists project.ID config.TargetBranch = .ok true →
     client.FindOpenMergeRequests project.ID config.OriginBranch
       config.TargetBranch = .ok [] →
     client.CompareBranches project.ID config.OriginBranch
       config.TargetBranch = .ok (some compare) →
     compare.HasChanges = true →
     client.CreateMergeRequest project.ID config.OriginBranch config.TargetBranch
       ("Merge " ++ config.OriginBranch ++ " into " ++ config.TargetBranch)
       ("This merge request was created automatically by gitlab-tools.\n\n**Source Branch**: `" ++
         config.OriginBranch ++ "`\n**Target Branch**: `" ++
         config.TargetBranch ++ "`") = .error err →
      processProject client config projectPath =
        some { Project := projectPath
               Status := StatusError
               ErrorMessage := "failed to create merge request: " ++ err }) ∧
    (∀ (r : ProjectResult) (ps : List String) (rs : List ProjectResult),
      processProject client config projectPath = some r →
      processList client config ps = some rs →
      processList client config (projectPath :: ps) = some (r :: rs)) := by
  refine ⟨?_, ?_, ?_, ?_, ?_, ?_, ?_⟩
  · intro hp
    exact run_getProject_error hp
  · intro hp ho
    exact run_origin_error hp ho
  · intro hp ho ht
    exact run_target_error hp ho ht
  · intro hp ho ht hq
    exact run_query_error hp ho ht hq
  · intro hp ho ht hq hc
    rw [run_query_empty hp ho ht hq]
    simp [hc]
  · intro compare hp ho ht hq hc hch hcr
    rw [processProject, run_query_empty hp ho ht hq]
    simp [hc, hch, hcr]
  · intro r ps rs h1 h2
    simp [processList, h1, h2]

/-- C7 witness: a failing project lookup yields a terminal `ERROR` result
carrying the failure message, after the single failing call. -/

theorem C7_error_isolation_witness :
    processProjectRun failingClient sampleConfig "group/x" =
      (some { Project := "group/x", Status := StatusError,
              ErrorMessage := "failed to get project group/x: boom" },
       [CallEvent.getProject "group/x"]) :=
  (C7_error_isolation failingClient sampleConfig "group/x" {}
    "failed to get project group/x: boom").1 rfl

/-! ## Lemmas about the project loop and the summary tally -/

theorem processProject_shape {client : GitLabClient} {config : Config}
    {projectPath : String} {r : ProjectResult}
    (h : processProject client config projectPath = some r) :
    r.Project = projectPath ∧ r.Status ∈ statusList := by
  rw [processProject] at h
  cases hg : client.GetProject projectPath with
  | error e =>
    rw [@run_getProject_error client config projectPath e hg] at h
    cases h
    exact ⟨rfl, by simp [statusList]⟩
  | ok op =>
    cases op with
    | none =>
      rw [@run_getProject_nil client config projectPath hg] at h
      cases h
    | some project =>
      cases ho : client.BranchExists project.ID config.OriginBranch with
      | error e =>
        rw [run_origin_error hg ho] at h
        cases h
        exact ⟨rfl, by simp [statusList]⟩
      | ok ob =>
        cases ob with
        | false =>
          rw [run_origin_missing hg ho] at h
          cases h
          exact ⟨rfl, by simp [statusList]⟩
        | true =>
          cases ht : client.BranchExists project.ID config.TargetBranch with
          | error e =>
            rw [run_target_error hg ho ht] at h
            cases h
            exact ⟨rfl, by simp [statusList]⟩
          | ok tb =>
            cases tb with
            | false =>
              rw [run_target_missing hg ho ht] at h
              cases h
              exact ⟨rfl, by simp [statusList]⟩
            | true =>
              cases hq : client.FindOpenMergeRequests project.ID
                  config.OriginBranch config.TargetBranch with
              | error e =>
                rw [run_query_error hg ho ht hq] at h
                cases h
                exact ⟨rfl, by simp [statusList]⟩
              | ok mrs =>
                cases hmr : mrs with
                | cons m rest =>
                  subst hmr
                  rw [run_query_nonempty hg ho ht hq (by simp)] at h
                  cases h
                  refine ⟨scan_Project _ _ _, ?_⟩
                  rcases scan_status { Project := projectPath } (m :: rest) none
                      (Or.inl (by simp)) with hs | hs <;>
                    simp [hs, statusList]
                | nil =>
                  subst hmr
                  rw [run_query_empty hg ho ht hq] at h
                  cases hc : client.CompareBranches project.ID
                      config.OriginBranch config.TargetBranch with
                  | error e =>
                    simp only [hc] at h
                    cases h
                    exact ⟨rfl, by simp [statusList]⟩
                  | ok oc =>
                    cases oc with
                    | none =>
                      simp only [hc] at h
                      cases h
                    | some compare =>
                      by_cases hch : compare.HasChanges
                      · cases hcr : client.CreateMergeRequest project.ID
                            config.OriginBranch config.TargetBranch
                            ("Merge " ++ config.OriginBranch ++ " into " ++ config.TargetBranch)
                            ("This merge request was created automatically by gitlab-tools.\n\n**Source Branch**: `" ++
                              config.OriginBranch ++ "`\n**Target Branch**: `" ++
                              config.TargetBranch ++ "`") with
                        | error e =>
                          simp only [hc, hch, hcr, Bool.not_true, Bool.false_eq_true,
                            if_false] at h
                          cases h
                          exact ⟨rfl, by simp [statusList]⟩
                        | ok om =>
                          cases om with
                          | none =>
                            simp only [hc, hch, hcr, Bool.not_true, Bool.false_eq_true,
                              if_false] at h
                            cases h
                          | some mr =>
                            simp only [hc, hch, hcr, Bool.not_true, Bool.false_eq_true,
                              if_false] at h
                            cases h
                            exact ⟨rfl, by simp [statusList]⟩
                      · have hch' : compare.HasChanges = false := by
                          cases hb : compare.HasChanges
                          · rfl
                          · exact absurd hb hch
                        simp only [hc, hch', Bool.not_false, if_true] at h
                        cases h
                        exact ⟨rfl, by simp [statusList]⟩

theorem processList_length_get {client : GitLabClient} {config : Config} :
    ∀ (ps : List String) (rs : List ProjectResult),
      processList client config ps = some rs →
      rs.length = ps.length ∧
      ∀ (i : Nat) (h1 : i < rs.length) (h2 : i < ps.length),
        processProject client config (ps.get ⟨i, h2⟩) = some (rs.get ⟨i, h1⟩) := by
  intro ps
  induction ps with
  | nil =>
    intro rs h
    simp only [processList, Option.some.injEq] at h
    subst h
    exact ⟨rfl, fun i h1 => absurd h1 (by simp)⟩
  | cons p ps ih =>
    intro rs h
    simp only [processList] at h
    cases hp : processProject client config p with
    | none =>
      rw [hp] at h
      cases h
    | some r =>
      rw [hp] at h
      cases hl : processList client config ps with
      | none =>
        rw [hl] at h
        cases h
      | some rs' =>
        rw [hl] at h
        simp only [Option.some.injEq] at h
        subst h
        obtain ⟨hlen, hget⟩ := ih rs' hl
        refine ⟨by simp [hlen], ?_⟩
        intro i h1 h2
        cases i with
        | zero => simpa using hp
        | succ j =>
          simpa using hget j (by simpa using h1) (by simpa using h2)

theorem processList_mem {client : GitLabClient} {config : Config} :
    ∀ (ps : List String) (rs : List ProjectResult),
      processList client config ps = some rs →
      ∀ r ∈ rs, ∃ p, processProject client config p = some r := by
  intro ps
  induction ps with
  | nil =>
    intro rs h
    simp only [processList, Option.some.injEq] at h
    subst h
    intro r hr
    simp at hr
  | cons p ps ih =>
    intro rs h
    simp only [processList] at h
    cases hp : processProject client config p with
    | none =>
      rw [hp] at h
      cases h
    | some r' =>
      rw [hp] at h
      cases hl : processList client config ps with
      | none =>
        rw [hl] at h
        cases h
      | some rs' =>
        rw [hl] at h
        simp only [Option.some.injEq] at h
        subst h
        intro r hr
        rcases List.mem_cons.mp hr with heq | hmem
        · exact ⟨p, heq ▸ hp⟩
        · exact ih rs' hl r hmem

theorem bumpSummary_Total (s : Summary) (st : ResultStatus) :
    (bumpSummary s st).Total = s.Total := by
  rw [bumpSummary]
  split_ifs <;> rfl

theorem bumpSummary_counterSum (s : Summary) (st : ResultStatus)
    (h : st ∈ statusList) :
    counterSum (bumpSummary s st) = counterSum s + 1 := by
  simp only [statusList, List.mem_cons, List.not_mem_nil, or_false] at h
  rcases h with h | h | h | h | h | h <;>
    subst h <;>
    simp [bumpSummary, counterSum, StatusCreated, StatusSkippedExists,
      StatusSkippedDraft, StatusSkippedBranch, StatusSkippedNoChange,
      StatusError] <;>
    omega

theorem tally_foldl :
    ∀ (results : List ProjectResult) (s : Summary),
      (∀ r ∈ results, r.Status ∈ statusList) →
      counterSum (results.foldl (fun acc r => bumpSummary acc r.Status) s) =
        counterSum s + results.length ∧
      (results.foldl (fun acc r => bumpSummary acc r.Status) s).Total = s.Total := by
  intro results
  induction results with
  | nil =>
    intro s _
    simp
  | cons r rest ih =>
    intro s hall
    simp only [List.foldl_cons]
    obtain ⟨h1, h2⟩ := ih (bumpSummary s r.Status) (fun x hx => hall x (by simp [hx]))
    constructor
    · rw [h1, bumpSummary_counterSum s r.Status (hall r (by simp))]
      simp [Nat.add_assoc, Nat.add_comm]
    · rw [h2, bumpSummary_Total]

/-- C6: `Summary.Total` equals the number of input repository paths, the
six per-status counters sum exactly to `Total`, and every result's status
is one of the six enumerated values. -/

theorem C6_summary_consistency {client : GitLabClient} {config : Config}
    {results : List ProjectResult} {summary : Summary}
    (h : ProcessProjects client config = some (results, summary)) :
    summary.Total = config.Projects.length ∧
    summary.Created + summary.SkippedExists + summary.SkippedDraft +
      summary.SkippedBranch + summary.SkippedNoChange + summary.Errors =
      summary.Total ∧
    ∀ r ∈ results, r.Status ∈
      [StatusCreated, StatusSkippedExists, StatusSkippedDraft,
       StatusSkippedBranch, StatusSkippedNoChange, StatusError] := by
  rw [ProcessProjects] at h
  cases hl : processList client config config.Projects with
  | none =>
    rw [hl] at h
    cases h
  | some rs =>
    rw [hl] at h
    simp only [Option.some.injEq, Prod.mk.injEq] at h
    obtain ⟨h1, h2⟩ := h
    subst h1
    subst h2
    have hmem : ∀ r ∈ rs, r.Status ∈ statusList := by
      intro r hr
      obtain ⟨p, hp⟩ := processList_mem config.Projects rs hl r hr
      exact (processProject_shape hp).2
    have hlen := (processList_length_get config.Projects rs hl).1
    obtain ⟨hsum, htot⟩ :=
      tally_foldl rs ({ Total := config.Projects.length }) hmem
    refine ⟨htot, ?_, fun r hr => by simpa [statusList] using hmem r hr⟩
    have hsum' : counterSum (tallySummary config.Projects.length rs) =
        rs.length := by
      rw [tallySummary, hsum]
      simp [counterSum]
    have htot' : (tallySummary config.Projects.length rs).Total =
        config.Projects.length := htot
    calc (tallySummary config.Projects.length rs).Created +
          (tallySummary config.Projects.length rs).SkippedExists +
          (tallySummary config.Projects.length rs).SkippedDraft +
          (tallySummary config.Projects.length rs).SkippedBranch +
          (tallySummary config.Projects.length rs).SkippedNoChange +
          (tallySummary config.Projects.length rs).Errors
        = counterSum (tallySummary config.Projects.length rs) := rfl
      _ = rs.length := hsum'
      _ = config.Projects.length := hlen
      _ = (tallySummary config.Projects.length rs).Total := htot'.symm

/-- C6 witness: one repository, one `CREATED` result; the counters add up. -/

theorem C6_summary_consistency_witness :
    ({ Total := 1, Created := 1 } : Summary).Total = sampleConfig.Projects.length ∧
    ({ Total := 1, Created := 1 } : Summary).Created +
      ({ Total := 1, Created := 1 } : Summary).SkippedExists +
      ({ Total := 1, Created := 1 } : Summary).SkippedDraft +
      ({ Total := 1, Created := 1 } : Summary).SkippedBranch +
      ({ Total := 1, Created := 1 } : Summary).SkippedNoChange +
      ({ Total := 1, Created := 1 } : Summary).Errors =
      ({ Total := 1, Created := 1 } : Summary).Total ∧
    ∀ r ∈ [createdSampleResult], r.Status ∈
      [StatusCreated, StatusSkippedExists, StatusSkippedDraft,
       StatusSkippedBranch, StatusSkippedNoChange, StatusError] :=
  @C6_summary_consistency (clientWith []) sampleConfig
    [createdSampleResult] { Total := 1, Created := 1 } rfl

/-- C8: the result list mirrors the input order with exactly one result per
input entry: entry `i` of the results is `processProject` of entry `i` of
the configured paths (so duplicates yield independent results), and it
names that path. -/

theorem C8_results_mirror_input {client : GitLabClient} {config : Config}
    {results : List ProjectResult} {summary : Summary}
    (h : ProcessProjects client config = some (results, summary)) :
    results.length = config.Projects.length ∧
    ∀ (i : Nat) (h1 : i < results.length) (h2 : i < config.Projects.length),
      processProject client config (config.Projects.get ⟨i, h2⟩) =
        some (results.get ⟨i, h1⟩) ∧
      (results.get ⟨i, h1⟩).Project = config.Projects.get ⟨i, h2⟩ := by
  rw [ProcessProjects] at h
  cases hl : processList client config config.Projects with
  | none =>
    rw [hl] at h
    cases h
  | some rs =>
    rw [hl] at h
    simp only [Option.some.injEq, Prod.mk.injEq] at h
    obtain ⟨h1, h2⟩ := h
    subst h1
    subst h2
    obtain ⟨hlen, hget⟩ := processList_length_get config.Projects rs hl
    refine ⟨hlen, fun i hi1 hi2 => ⟨hget i hi1 hi2, ?_⟩⟩
    exact (processProject_shape (hget i hi1 hi2)).1

/-- C8 witness: with the same path listed twice, entry 1 of the results is
an independent `CREATED` result for that same path. -/

theorem C8_results_mirror_input_witness :
    processProject (clientWith []) dupConfig (dupConfig.Projects.get ⟨1, by decide⟩) =
      some ([createdSampleResult, createdSampleResult].get ⟨1, by decide⟩) ∧
    ([createdSampleResult, createdSampleResult].get ⟨1, by decide⟩).Project =
      dupConfig.Projects.get ⟨1, by decide⟩ :=
  (@C8_results_mirror_input (clientWith []) dupConfig
    [createdSampleResult, createdSampleResult]
    { Total := 2, Created := 2 } rfl).2 1 (by decide) (by decide)

end bulkmr
